import Mathlib

/-!
Verification of the real-time chat backend (`vit0rr/chat`).

Shallow embedding of the Go sources:
- `api/internal/chat-service/service.go` — the WebSocket session handler
  (`WebSocket`), the lock operation (`LockRoom`) and the broadcast path
  (`broadcastToRoom`);
- `pkg/deps/redis.go` — the rate limiter (`CheckAndUpdateMessageRateLimit`);
- `pkg/database/repositories/rooms.go` — the `Room` document.

Adapter calls (MongoDB, Redis) are modelled by explicit inputs (the fetched
room document, the stored rate-limit value) and explicit outputs (lists of
effects / actions), on the success path unless a failure flag is part of the
function's own control flow (persistence failure in `broadcastToRoom`,
read/parse failure in the rate limiter). `time.Time` is modelled as `Nat`
(resp. `Int` differences) in nanoseconds.
-/

namespace Chat

/-- `repositories.UserRef` (rooms.go): one member entry of a room document. -/
structure UserRef where
  id : String
  nickname : String
deriving Repr, DecidableEq

/-- `repositories.Room` (rooms.go lines 15-21). `createdAt`/`updatedAt` are
never read by the operations under verification and are omitted. -/
structure Room where
  id : String
  users : List UserRef
  lockedBy : String
deriving Repr, DecidableEq

/-- `MessageType` (service.go lines 37-43). -/
inductive MessageType where
  | text
  | system
deriving Repr, DecidableEq

/-- `ChatMessage` (service.go lines 46-53). The JSON field `type` is named
`msgType` here (`type` is a Lean keyword); `timestamp` is nanoseconds. -/
structure ChatMessage where
  msgType : MessageType
  content : String
  roomId : String
  senderId : String
  nickname : String
  timestamp : Nat
deriving Repr, DecidableEq

/-- `MaxMessageLen` (service.go line 42). -/
def MaxMessageLen : Nat := 5000

/-- `Client` (service.go lines 27-34), without the connection handle, the
mutex and the `isOnline` flag (the latter is written once and never read). -/
structure Client where
  roomID : String
  userID : String
  nickname : String
deriving Repr, DecidableEq

/-- The oversize reply written at service.go lines 334-339: a `system`
message with zero-valued `SenderId`/`Nickname`. -/
def oversizeReply (roomID : String) (now : Nat) : ChatMessage :=
  { msgType := .system
    content := "Message exceeds maximum length of " ++ toString MaxMessageLen ++ " characters"
    roomId := roomID
    senderId := ""
    nickname := ""
    timestamp := now }

/-- The system broadcast built at service.go lines 365-370 (and 699-704). -/
def unlockedByMsg (roomID nickname : String) (now : Nat) : ChatMessage :=
  { msgType := .system
    content := "Room has been unlocked by " ++ nickname
    roomId := roomID
    senderId := ""
    nickname := ""
    timestamp := now }

/-- The system broadcast built at service.go lines 709-714. -/
def lockedByMsg (roomID nickname : String) (now : Nat) : ChatMessage :=
  { msgType := .system
    content := "Room has been locked by " ++ nickname
    roomId := roomID
    senderId := ""
    nickname := ""
    timestamp := now }

/-- The private reply written at service.go lines 376-381. -/
def roomLockedReply (roomID : String) (now : Nat) : ChatMessage :=
  { msgType := .system
    content := "Room is locked. Messages cannot be sent."
    roomId := roomID
    senderId := ""
    nickname := ""
    timestamp := now }

/-- Stamping of an inbound message (service.go lines 386-389): the server
overwrites `Timestamp`, `SenderId`, `Nickname` and `RoomId`; `Type` and
`Content` are kept as received. -/
def stampMessage (c : Client) (now : Nat) (m : ChatMessage) : ChatMessage :=
  { m with
    timestamp := now
    senderId := c.userID
    nickname := c.nickname
    roomId := c.roomID }

/-- Result of handling one inbound socket frame (one iteration of the loop at
service.go lines 321-393): the messages written back to this session's own
socket, the messages handed to `broadcastToRoom` (in order), and the room's
`lockedBy` field after the iteration. -/
structure InboundResult where
  selfWrites : List ChatMessage
  broadcasts : List ChatMessage
  newLockedBy : String
deriving Repr, DecidableEq

/-- One iteration of the inbound loop (service.go lines 321-393), on the
success path of the adapter calls. In order, as in the source:
1. length check (line 332): oversize frames get a private system reply and
   the iteration ends (`continue`);
2. the room is re-fetched; if `room.LockedBy == userID` the handler clears
   `lockedBy` and broadcasts the unlock message (lines 354-371), and falls
   through (no `continue`);
3. if the *fetched* `room.LockedBy` is non-empty and differs from `userID`,
   a private reply is written and the iteration ends (lines 374-384);
4. otherwise the frame is stamped and handed to `broadcastToRoom`
   (lines 386-392). -/
def handleInbound (room : Room) (c : Client) (now : Nat) (m : ChatMessage) : InboundResult :=
  if MaxMessageLen < m.content.length then
    { selfWrites := [oversizeReply c.roomID now]
      broadcasts := []
      newLockedBy := room.lockedBy }
  else
    let unlockBroadcasts : List ChatMessage :=
      if room.lockedBy = c.userID then [unlockedByMsg c.roomID c.nickname now] else []
    let lockedByAfterUnlock : String :=
      if room.lockedBy = c.userID then "" else room.lockedBy
    if room.lockedBy ≠ "" ∧ room.lockedBy ≠ c.userID then
      { selfWrites := [roomLockedReply c.roomID now]
        broadcasts := unlockBroadcasts
        newLockedBy := lockedByAfterUnlock }
    else
      { selfWrites := []
        broadcasts := unlockBroadcasts ++ [stampMessage c now m]
        newLockedBy := lockedByAfterUnlock }

/-- The bus-forwarding goroutine (service.go lines 295-318): for each payload
received from the Redis subscription, decode it; on decode failure log and
`continue`; otherwise write the decoded message to this session's socket
unconditionally — there is no inspection of `SenderId` and `ChatMessage`
carries no connection metadata. A payload is modelled as `Option ChatMessage`
(`none` = undecodable). Result: the messages written to the socket, in order. -/
def busLoopWrites : List (Option ChatMessage) → List ChatMessage
  | [] => []
  | none :: rest => busLoopWrites rest
  | some m :: rest => m :: busLoopWrites rest

/-- All socket writes an accepted session performs through the subscription
path, given the room's persisted message history and the bus frames received
(service.go lines 254-318): between the subscribe (line 255) and the
forwarding loop the handler writes nothing — no read of the message history
or of any replay buffer occurs anywhere in `WebSocket`, so `history` is
unused — and then each decodable bus frame is written. The `[] ++` makes the
empty replay prefix explicit. -/
def sessionSocketWrites (history : List ChatMessage) (frames : List (Option ChatMessage)) :
    List ChatMessage :=
  [] ++ busLoopWrites frames

/-- Modelled from the spec (claims C2): `replay_count`, default 50. No such
constant or replay mechanism exists in the sources. -/
def ReplayCountSpec : Nat := 50

/-- Modelled from the spec (claim C2): the `count` most recent messages of a
history held in ascending timestamp order, themselves in ascending timestamp
order — `min(count, available)` messages. Spec-side definition used to state
the claimed replay behaviour; the source has no counterpart. -/
def replaySpecFrames (history : List ChatMessage) (count : Nat) : List ChatMessage :=
  history.drop (history.length - count)

/-- Modelled from the spec (claim C4): `message_delay_ms`, default 1500 ms,
here in nanoseconds. No such constant exists in the sources and
`CheckAndUpdateMessageRateLimit` has no caller. -/
def MessageDelaySpec : Nat := 1500000000

/-- The inbound loop over a list of frames. The room document is re-fetched
at each iteration (service.go line 345); on the success path with no
concurrent writers this returns the state left by the previous iteration,
modelled by threading `lockedBy`. Result: (writes to this session's socket,
messages handed to `broadcastToRoom`), each in order. -/
def runInbound (c : Client) (now : Nat) : Room → List ChatMessage → List ChatMessage × List ChatMessage
  | _, [] => ([], [])
  | room, m :: rest =>
    let r := handleInbound room c now m
    let tail := runInbound c now { room with lockedBy := r.newLockedBy } rest
    (r.selfWrites ++ tail.1, r.broadcasts ++ tail.2)

/-- `websocket.StatusInternalError` from the coder/websocket package: close
code 1011, used by `WebSocket` on every setup-failure path. -/
def StatusInternalError : Nat := 1011

/-- Side effects of a successful connection setup (service.go lines 254-276),
in source order: subscribe to the room's Redis channel, the Redis pipeline
(`SAdd room:{id}:clients`, `SAdd room:{id}:online`, `Expire` 24 h = 86400 s,
`Expire` 1 s), then `UpdateUser` marking the user online in MongoDB. -/
inductive SetupEffect where
  | subscribe (channel : String)
  | sAddClients (roomID userID : String)
  | sAddOnline (roomID userID : String)
  | expireClients (roomID : String) (seconds : Nat)
  | expireOnline (roomID : String) (seconds : Nat)
  | setActivityOnline (userID : String)
deriving Repr, DecidableEq

/-- Outcome of the setup phase: `failed code` models closing the socket with
close code `code` and returning a non-nil error from the handler. -/
inductive SetupOutcome where
  | failed (closeCode : Nat)
  | accepted
deriving Repr, DecidableEq

/-- The setup phase of `WebSocket` (service.go lines 209-276) after the
accept, on the success path of the adapter calls. `roomLookup` is the result
of `repositories.GetRooms` (`none` = room not found). Room absent (lines
223-227) and user not in `room.Users` (lines 229-243) both close the socket
with `websocket.StatusInternalError` and return an error before any of the
registration effects; the authorized path performs the effects in source
order. -/
def wsSetup (roomLookup : Option Room) (roomID userID : String) :
    SetupOutcome × List SetupEffect :=
  match roomLookup with
  | none => (.failed StatusInternalError, [])
  | some room =>
    if room.users.any (fun u => u.id == userID) then
      (.accepted,
        [.subscribe roomID,
         .sAddClients roomID userID,
         .sAddOnline roomID userID,
         .expireClients roomID 86400,
         .expireOnline roomID 1,
         .setActivityOnline userID])
    else
      (.failed StatusInternalError, [])

/-- Adapter actions issued by `broadcastToRoom`, in order. -/
inductive BroadcastAction where
  | createMessage (roomID content fromUserID nickname : String)
  | logSaveError
  | publish (channel : String) (m : ChatMessage)
  | logPublishError
deriving Repr, DecidableEq

/-- `broadcastToRoom` (service.go lines 817-847): first
`repositories.CreateMessage` persists the message to MongoDB; on failure the
error is only logged (lines 826-830) and execution continues; then the
message is marshalled (which cannot fail for this struct) and published to
the room's Redis channel; a publish failure is also only logged. The Go
function returns nothing, so no error can reach the caller or the sending
session; the codomain here is the ordered action list and contains no socket
write and no returned error. -/
def broadcastToRoom (persistFails publishFails : Bool) (roomID : String) (m : ChatMessage) :
    List BroadcastAction :=
  [BroadcastAction.createMessage m.roomId m.content m.senderId m.nickname]
    ++ (if persistFails then [BroadcastAction.logSaveError] else [])
    ++ [BroadcastAction.publish roomID m]
    ++ (if publishFails then [BroadcastAction.logPublishError] else [])

/-- The nickname lookup loop of `LockRoom` (service.go lines 672-677): scans
all users without `break`, so the last matching entry wins; `""` if none. -/
def userNicknameIn (users : List UserRef) (userID : String) : String :=
  users.foldl (fun acc u => if u.id = userID then u.nickname else acc) ""

/-- Result value of `LockRoom`: an error response (with the constants'
error id and HTTP code), or one of the two success statuses, which serialize
to `{"status": "room unlocked"}` and `{"status": "room locked"}`. -/
inductive LockStatus where
  | errResp (errorId : String) (code : Nat)
  | roomUnlocked
  | roomLocked
deriving Repr, DecidableEq

/-- Outcome of `LockRoom`: status, final room document, system broadcasts. -/
structure LockOutcome where
  status : LockStatus
  room : Option Room
  broadcasts : List ChatMessage
deriving Repr, DecidableEq

/-- `LockRoom` (service.go lines 551-717) on the success path of the adapter
calls, given the fetched room document. In source order:
1. empty `UserID` is rejected (lines 570-582);
2. absent room is rejected with 404 (lines 601-613);
3. a requester not in `room.Users` is rejected with 403 (lines 615-635);
4. the handler then *unconditionally* sets `lockedBy` to the requester
   (lines 637-653), re-fetches the room for the nickname (lines 655-677);
5. if the *previously fetched* `room.LockedBy` equals the requester, it sets
   `lockedBy` back to `""`, broadcasts the unlock message and returns
   "room unlocked" (lines 679-707);
6. otherwise — including when the room was locked by a *different* user —
   it broadcasts the lock message and returns "room locked" (lines 709-716).
There is no branch returning forbidden for a room locked by another member. -/
def LockRoom (roomLookup : Option Room) (userID : String) (now : Nat) : LockOutcome :=
  if userID = "" then
    { status := .errResp "user_id_required" 400, room := roomLookup, broadcasts := [] }
  else
    match roomLookup with
    | none => { status := .errResp "room_not_found" 404, room := none, broadcasts := [] }
    | some room =>
      if room.users.any (fun u => u.id == userID) then
        let room1 : Room := { room with lockedBy := userID }
        let userNickname := userNicknameIn room1.users userID
        if room.lockedBy = userID then
          { status := .roomUnlocked
            room := some { room1 with lockedBy := "" }
            broadcasts := [unlockedByMsg room.id userNickname now] }
        else
          { status := .roomLocked
            room := some room1
            broadcasts := [lockedByMsg room.id userNickname now] }
      else
        { status := .errResp "user_not_authorized_to_lock_room" 403
          room := some room, broadcasts := [] }

/-- Result of `redisClient.Get` on the `rate_limit:{userId}:last_msg` key:
the key is absent (`redis.Nil`), the read failed with some other error, or a
stored string value. -/
inductive GetResult where
  | missing
  | errResult
  | value (s : String)
deriving Repr, DecidableEq

/-- A `redisClient.Set` of the current time with a TTL, as issued by the
rate limiter. -/
structure StoreWrite where
  value : Int
  ttl : Int
deriving Repr, DecidableEq

/-- Return of `CheckAndUpdateMessageRateLimit`: the `(bool, float64)` pair —
`wait` is the duration returned in seconds by the Go code, kept here in the
same nanosecond unit as `delay` — plus the store write it issues, if any. -/
structure RateLimitResult where
  allowed : Bool
  wait : Int
  write : Option StoreWrite
deriving Repr, DecidableEq

/-- `CheckAndUpdateMessageRateLimit` (redis.go lines 77-108). `parse` stands
for `time.Parse(time.RFC3339Nano, ·)` (`none` = parse error) and `now`,
`delay` are nanosecond instants/durations. In source order:
- a `Get` error other than `redis.Nil` is logged and the check returns
  `(true, 0)` with no write (lines 81-84);
- `redis.Nil` returns `(true, 0)` after storing `now` with TTL `delay*2`
  (lines 86-90);
- an unparseable stored value is logged and returns `(true, 0)` with no
  write (lines 92-96);
- `now - last < delay` returns `(false, delay - (now - last))` with no
  write (lines 98-103);
- otherwise `(true, 0)` after storing `now` with TTL `delay*2`. -/
def CheckAndUpdateMessageRateLimit (parse : String → Option Int)
    (stored : GetResult) (now delay : Int) : RateLimitResult :=
  match stored with
  | .errResult => { allowed := true, wait := 0, write := none }
  | .missing => { allowed := true, wait := 0, write := some { value := now, ttl := delay * 2 } }
  | .value s =>
    match parse s with
    | none => { allowed := true, wait := 0, write := none }
    | some last =>
      let timeSinceLastMessage := now - last
      if timeSinceLastMessage < delay then
        { allowed := false, wait := delay - timeSinceLastMessage, write := none }
      else
        { allowed := true, wait := 0, write := some { value := now, ttl := delay * 2 } }

/-! Concrete fixtures used by counterexamples and witnesses. -/

/-- A session of member u2/"Bob" of room "room-1". -/
def sampleClient : Client :=
  { roomID := "room-1", userID := "u2", nickname := "Bob" }

/-- Room "room-1" with members u1 and u2, not locked. -/
def sampleRoomUnlocked : Room :=
  { id := "room-1"
    users := [{ id := "u1", nickname := "Alice" }, { id := "u2", nickname := "Bob" }]
    lockedBy := "" }

/-- The same room, locked by u1. -/
def roomLockedByU1 : Room := { sampleRoomUnlocked with lockedBy := "u1" }

/-- The same room, locked by u2. -/
def roomLockedByU2 : Room := { sampleRoomUnlocked with lockedBy := "u2" }

/-- An inbound client frame: only `type` and `content` populated. -/
def sampleInbound : ChatMessage :=
  { msgType := .text, content := "hi", roomId := "", senderId := "", nickname := ""
    timestamp := 0 }

/-- A persisted message of room "room-1". -/
def sampleHistoryMsg : ChatMessage :=
  { msgType := .text, content := "old news", roomId := "room-1", senderId := "u1"
    nickname := "Alice", timestamp := 1 }

/-- A concrete stand-in for `time.Parse(time.RFC3339Nano, ·)`: "old" parses
to instant 0, "recent" to instant 9, anything else fails to parse. -/
def sampleParse : String → Option Int :=
  fun s => if s = "old" then some 0 else if s = "recent" then some 9 else none

/-- Content of byte length 5001, one over `MaxMessageLen`. -/
def bigContent : String := String.mk (List.replicate 5001 'a')

/-- An inbound frame whose content exceeds `MaxMessageLen`. -/
def bigMsg : ChatMessage :=
  { msgType := .text, content := bigContent, roomId := "", senderId := "", nickname := ""
    timestamp := 0 }

/-! Claim C1 — lock request on a room locked by another member. -/

/-- Claim C1, counterexample. The claim states that a lock request by member
m on a room whose `lockedBy` is some other member u returns forbidden and
leaves `lockedBy` equal to u. On the code: u2 requests the lock on a room
locked by u1; `LockRoom` returns the success status "room locked" and sets
`lockedBy` to u2, not u1 — the lock is transferred, not refused. -/
theorem C1_counterexample :
    (LockRoom (some roomLockedByU1) "u2" 0).status = LockStatus.roomLocked ∧
    (LockRoom (some roomLockedByU1) "u2" 0).room.map Room.lockedBy = some "u2" ∧
    ¬((LockRoom (some roomLockedByU1) "u2" 0).room.map Room.lockedBy = some "u1") := by
  refine ⟨rfl, rfl, by decide⟩

/-- Claim C1, amended: for every lock request handled by `LockRoom` on an
existing room, made by a member m (with non-empty id) while the room's
`lockedBy` field is non-empty and differs from m, the operation returns
"room locked", sets `lockedBy` to m, and broadcasts the system message
"Room has been locked by {m's nickname}" — the lock is transferred to m
rather than refused. -/
theorem C1_theorem (room : Room) (userID : String) (now : Nat)
    (hne : userID ≠ "")
    (hmem : room.users.any (fun u => u.id == userID) = true)
    (hlocked : room.lockedBy ≠ "")
    (hother : room.lockedBy ≠ userID) :
    LockRoom (some room) userID now =
      { status := .roomLocked
        room := some { room with lockedBy := userID }
        broadcasts := [lockedByMsg room.id (userNicknameIn room.users userID) now] } := by
  simp [LockRoom, hne, hmem, hother]

/-- Claim C1, witness: the amended statement at the concrete room locked by
u1 and requester u2. -/
theorem C1_witness :
    LockRoom (some roomLockedByU1) "u2" 0 =
      { status := .roomLocked
        room := some { roomLockedByU1 with lockedBy := "u2" }
        broadcasts :=
          [lockedByMsg roomLockedByU1.id (userNicknameIn roomLockedByU1.users "u2") 0] } :=
  C1_theorem roomLockedByU1 "u2" 0 (by decide) (by decide) (by decide) (by decide)

/-! Claim C2 — replay of recent messages on subscribe. -/

/-- Claim C2, counterexample. The claim states that immediately after
subscribing, and before any live message, the server writes the
min(ReplayCount, available) most recent messages of the room in ascending
timestamp order. On the code: for a room with one persisted message and no
live frames, the claimed replay is that one message, but the session's
socket-write stream is empty — `WebSocket` performs no replay at all. -/
theorem C2_counterexample :
    sessionSocketWrites [sampleHistoryMsg] [] = [] ∧
    replaySpecFrames [sampleHistoryMsg] ReplayCountSpec = [sampleHistoryMsg] ∧
    sessionSocketWrites [sampleHistoryMsg] [] ≠
      replaySpecFrames [sampleHistoryMsg] ReplayCountSpec := by
  refine ⟨rfl, rfl, by decide⟩

/-- Claim C2, amended: for every newly accepted session, the server writes
no replayed messages: whatever the room's persisted history, the frames
written to the socket through the subscription path are exactly the
decodable live frames, in bus order. (Message history is served by the
separate `GetMessages` HTTP endpoint instead.) -/
theorem C2_theorem (history : List ChatMessage) (frames : List (Option ChatMessage)) :
    sessionSocketWrites history frames = frames.filterMap id := by
  simp only [sessionSocketWrites, List.nil_append]
  induction frames with
  | nil => rfl
  | cons f rest ih => cases f <;> simp [busLoopWrites, ih]

/-! Claim C3 — echo suppression on the bus-forwarding path. -/

/-- Claim C3, counterexample. The claim states a frame is dropped iff its
`senderId` equals the session's userId and its connection metadata matches,
and in particular that a publishing session never receives its own text
message back. On the code: the session's own stamped message, coming back
from the bus to the very session (and connection) that published it, is
written back to that session's socket — nothing is ever dropped. -/
theorem C3_counterexample :
    (stampMessage sampleClient 5 sampleInbound).senderId = sampleClient.userID ∧
    busLoopWrites [some (stampMessage sampleClient 5 sampleInbound)] =
      [stampMessage sampleClient 5 sampleInbound] :=
  ⟨rfl, rfl⟩

/-- Claim C3, amended: no echo suppression is performed: every frame decoded
from the room's bus subscription is written to the session's socket,
including frames whose `senderId` equals the session's own userId (the
message type carries no connection metadata at all), so a publishing session
receives its own text message back via the bus path. -/
theorem C3_theorem (c : Client) (m : ChatMessage) (frames : List (Option ChatMessage))
    (hsender : m.senderId = c.userID) (hmem : some m ∈ frames) :
    m ∈ busLoopWrites frames := by
  induction frames with
  | nil => cases hmem
  | cons f rest ih =>
    rcases List.mem_cons.mp hmem with hf | htail
    · rw [← hf]
      exact List.mem_cons_self m (busLoopWrites rest)
    · cases f with
      | none => exact ih htail
      | some m' => exact List.mem_cons_of_mem m' (ih htail)

/-- Claim C3, witness: the amended statement at the session's own stamped
message arriving as the only bus frame. -/
theorem C3_witness :
    stampMessage sampleClient 5 sampleInbound ∈
      busLoopWrites [some (stampMessage sampleClient 5 sampleInbound)] :=
  C3_theorem sampleClient (stampMessage sampleClient 5 sampleInbound)
    [some (stampMessage sampleClient 5 sampleInbound)] rfl (List.mem_singleton.mpr rfl)

/-! Claim C4 — rate limiting of inbound text frames. -/

/-- Claim C4, counterexample. The claim states the supervisor consults the
rate limiter before broadcasting and that two consecutively accepted text
messages from the same userId are at least `MessageDelay` (1500 ms) apart.
On the code: the same session sends the same short text frame at t = 0 and
at t = 500 ms on an unlocked room; both frames are handed to
`broadcastToRoom` — the inbound loop never consults
`CheckAndUpdateMessageRateLimit` (the function has no caller). -/
theorem C4_counterexample :
    (handleInbound sampleRoomUnlocked sampleClient 0 sampleInbound).broadcasts =
      [stampMessage sampleClient 0 sampleInbound] ∧
    (handleInbound sampleRoomUnlocked sampleClient 500000000 sampleInbound).broadcasts =
      [stampMessage sampleClient 500000000 sampleInbound] ∧
    (500000000 : Nat) < MessageDelaySpec := by
  refine ⟨rfl, rfl, by decide⟩

/-- Claim C4, amended: the supervisor performs no rate limiting: an inbound
frame that passes the length check, sent by a session with non-empty userId
on an unlocked room, is stamped and handed to `broadcastToRoom` whatever the
server time `now` — in particular regardless of how recently the same sender
last sent — and no system reply is written to the sender. -/
theorem C4_theorem (room : Room) (c : Client) (m : ChatMessage) (now : Nat)
    (hlen : m.content.length ≤ MaxMessageLen)
    (hunlocked : room.lockedBy = "") (huser : c.userID ≠ "") :
    handleInbound room c now m =
      { selfWrites := [], broadcasts := [stampMessage c now m], newLockedBy := "" } := by
  simp [handleInbound, Nat.not_lt.mpr hlen, hunlocked, Ne.symm huser]

/-- Claim C4, witness: the amended statement at a concrete short frame on
the unlocked room. -/
theorem C4_witness :
    handleInbound sampleRoomUnlocked sampleClient 0 sampleInbound =
      { selfWrites := []
        broadcasts := [stampMessage sampleClient 0 sampleInbound]
        newLockedBy := "" } :=
  C4_theorem sampleRoomUnlocked sampleClient sampleInbound 0 (by decide) rfl (by decide)

/-! Claim C5 — rate-limit check semantics. -/

/-- Claim C5: for every userId and delay, the rate-limit check behaves as:
no stored last-send value ⟹ (allowed, 0) and the current time is stored
with TTL 2·delay; a stored value `last` with `now - last < delay` ⟹
(refused, delay − (now − last)) with no overwrite of the stored value; a
stored value with `now - last ≥ delay` ⟹ (allowed, 0) and the current time
is stored with TTL 2·delay. -/
theorem C5_theorem (parse : String → Option Int) (now delay : Int) :
    CheckAndUpdateMessageRateLimit parse .missing now delay =
      { allowed := true, wait := 0, write := some { value := now, ttl := delay * 2 } } ∧
    (∀ s last, parse s = some last → now - last < delay →
      CheckAndUpdateMessageRateLimit parse (.value s) now delay =
        { allowed := false, wait := delay - (now - last), write := none }) ∧
    (∀ s last, parse s = some last → delay ≤ now - last →
      CheckAndUpdateMessageRateLimit parse (.value s) now delay =
        { allowed := true, wait := 0, write := some { value := now, ttl := delay * 2 } }) := by
  refine ⟨rfl, ?_, ?_⟩
  · intro s last hp hlt
    simp [CheckAndUpdateMessageRateLimit, hp, hlt]
  · intro s last hp hge
    simp [CheckAndUpdateMessageRateLimit, hp, not_lt.mpr hge]

/-- Claim C5, witness: the three branches at `now = 10`, `delay = 4`, with a
stored value parsing to 9 (recent: refused, wait 3) and one parsing to 0
(aged: allowed, re-stored with TTL 8). -/
theorem C5_witness :
    CheckAndUpdateMessageRateLimit sampleParse .missing 10 4 =
      { allowed := true, wait := 0, write := some { value := 10, ttl := 8 } } ∧
    CheckAndUpdateMessageRateLimit sampleParse (.value "recent") 10 4 =
      { allowed := false, wait := 3, write := none } ∧
    CheckAndUpdateMessageRateLimit sampleParse (.value "old") 10 4 =
      { allowed := true, wait := 0, write := some { value := 10, ttl := 8 } } := by
  have h := C5_theorem sampleParse 10 4
  exact ⟨h.1.trans (by decide),
    (h.2.1 "recent" 9 (by decide) (by decide)).trans (by decide),
    (h.2.2 "old" 0 (by decide) (by decide)).trans (by decide)⟩

/-! Claim C6 — room lock interaction of the inbound text path. -/

/-- Claim C6: when a session whose userId equals the room's current
`lockedBy` sends a text frame passing the length check, the room's
`lockedBy` is set to empty, the system broadcast
"Room has been unlocked by {nickname}" is emitted, and then the stamped text
message itself is broadcast; when a session whose userId differs from a
non-empty `lockedBy` sends a text frame, that session receives only the
private system reply "Room is locked. Messages cannot be sent." and the
frame is neither handed to persistence nor published (empty broadcast
list). -/
theorem C6_theorem (room : Room) (c : Client) (now : Nat) (m : ChatMessage)
    (hlen : m.content.length ≤ MaxMessageLen) :
    (room.lockedBy = c.userID →
      handleInbound room c now m =
        { selfWrites := []
          broadcasts := [unlockedByMsg c.roomID c.nickname now, stampMessage c now m]
          newLockedBy := "" }) ∧
    (room.lockedBy ≠ "" → room.lockedBy ≠ c.userID →
      handleInbound room c now m =
        { selfWrites := [roomLockedReply c.roomID now]
          broadcasts := []
          newLockedBy := room.lockedBy }) := by
  constructor
  · intro hlock
    simp [handleInbound, Nat.not_lt.mpr hlen, hlock]
  · intro h1 h2
    simp [handleInbound, Nat.not_lt.mpr hlen, h1, h2]

/-- Claim C6, witness: both branches at concrete rooms — u2 sending while
holding the lock, and u2 sending while u1 holds the lock. -/
theorem C6_witness :
    handleInbound roomLockedByU2 sampleClient 3 sampleInbound =
      { selfWrites := []
        broadcasts := [unlockedByMsg "room-1" "Bob" 3, stampMessage sampleClient 3 sampleInbound]
        newLockedBy := "" } ∧
    handleInbound roomLockedByU1 sampleClient 3 sampleInbound =
      { selfWrites := [roomLockedReply "room-1" 3]
        broadcasts := []
        newLockedBy := "u1" } := by
  have h2 := (C6_theorem roomLockedByU2 sampleClient 3 sampleInbound (by decide)).1 rfl
  have h1 := (C6_theorem roomLockedByU1 sampleClient 3 sampleInbound (by decide)).2
    (by decide) (by decide)
  exact ⟨h2.trans (by decide), h1.trans (by decide)⟩

/-! Claim C7 — persist-then-publish in `broadcastToRoom`. -/

/-- Claim C7: for every message handed to `broadcastToRoom`, the persistence
append (`CreateMessage`) is the first adapter action — attempted before the
bus publish — and whether or not the append fails, the publish action still
occurs; the function returns nothing, so no error reaches the sending
session (a failure is only logged, which the action list records). -/
theorem C7_theorem (persistFails publishFails : Bool) (roomID : String) (m : ChatMessage) :
    (broadcastToRoom persistFails publishFails roomID m).head? =
      some (BroadcastAction.createMessage m.roomId m.content m.senderId m.nickname) ∧
    BroadcastAction.publish roomID m ∈ broadcastToRoom persistFails publishFails roomID m := by
  cases persistFails <;> cases publishFails <;> simp [broadcastToRoom]

/-! Claim C8 — connection refusal without registration side effects. -/

/-- Claim C8: for every connection attempt where the requested room does not
exist or the requesting userId is not in the room's member list, the socket
is closed with close code 1011 (`websocket.StatusInternalError`), the
handler returns an error, and no registration side effect occurs: the
effect list is empty, so the user is neither added to the room's
clients/online Redis sets nor marked online in MongoDB. -/
theorem C8_theorem (roomLookup : Option Room) (roomID userID : String)
    (h : ∀ room, roomLookup = some room → room.users.any (fun u => u.id == userID) = false) :
    wsSetup roomLookup roomID userID = (.failed StatusInternalError, []) ∧
    StatusInternalError = 1011 := by
  refine ⟨?_, rfl⟩
  cases roomLookup with
  | none => rfl
  | some room => simp [wsSetup, h room rfl]

/-- Claim C8, witness: u3, not a member of the concrete room, is refused
with close code 1011 and an empty effect list. -/
theorem C8_witness :
    wsSetup (some sampleRoomUnlocked) "room-1" "u3" = (.failed StatusInternalError, []) ∧
    StatusInternalError = 1011 :=
  C8_theorem (some sampleRoomUnlocked) "room-1" "u3"
    (fun room h => by injection h with h; rw [← h]; decide)

/-! Claim C9 — oversize frames. -/

/-- Claim C9: for every inbound frame whose content length exceeds 5000, the
handler writes exactly one system message describing the 5000-character
limit to the sending socket only, hands nothing to `broadcastToRoom` (so the
frame is neither persisted nor published), leaves the room state unchanged,
and keeps processing the remaining frames of the session exactly as it
would have without the oversize frame. -/
theorem C9_theorem (room : Room) (c : Client) (now : Nat) (m : ChatMessage)
    (rest : List ChatMessage) (hlen : MaxMessageLen < m.content.length) :
    runInbound c now room (m :: rest) =
      (oversizeReply c.roomID now :: (runInbound c now room rest).1,
       (runInbound c now room rest).2) := by
  simp [runInbound, handleInbound, hlen]

/-- Claim C9, witness: a 5001-character frame as the whole inbound stream of
the session yields exactly the oversize system reply and no broadcast. -/
theorem C9_witness :
    runInbound sampleClient 7 sampleRoomUnlocked [bigMsg] =
      ([oversizeReply "room-1" 7], []) := by
  have h := C9_theorem sampleRoomUnlocked sampleClient 7 bigMsg []
    (by simp only [bigMsg, bigContent, String.length_mk, List.length_replicate, MaxMessageLen]
        decide)
  simpa [runInbound] using h

/-! Claim C10 — the rate limiter fails open. -/

/-- Claim C10: if reading the stored last-send value fails with an adapter
error other than key-missing, or the stored value cannot be parsed as an
RFC3339Nano timestamp, `CheckAndUpdateMessageRateLimit` returns (allowed, 0)
— and issues no store write — so a send is never refused because of
rate-limiter storage failure or corruption. -/
theorem C10_theorem (parse : String → Option Int) (now delay : Int) :
    CheckAndUpdateMessageRateLimit parse .errResult now delay =
      { allowed := true, wait := 0, write := none } ∧
    (∀ s, parse s = none →
      CheckAndUpdateMessageRateLimit parse (.value s) now delay =
        { allowed := true, wait := 0, write := none }) := by
  refine ⟨rfl, ?_⟩
  intro s hp
  simp [CheckAndUpdateMessageRateLimit, hp]

/-- Claim C10, witness: a read error and an unparseable stored value both
yield (allowed, 0) with no store write. -/
theorem C10_witness :
    CheckAndUpdateMessageRateLimit sampleParse .errResult 10 4 =
      { allowed := true, wait := 0, write := none } ∧
    CheckAndUpdateMessageRateLimit sampleParse (.value "corrupt") 10 4 =
      { allowed := true, wait := 0, write := none } := by
  have h := C10_theorem sampleParse 10 4
  exact ⟨h.1, h.2 "corrupt" (by decide)⟩

end Chat
